import Mathlib

/-!
Shallow embedding of `src/handlers.go` (package khatru), the websocket
message-processing core of the relay: the body of the per-message goroutine
spawned by the read loop of `HandleWebsocket`, which switches on the decoded
envelope variant (Event / Count / Req / Close / Auth).

External collaborators (`AddEvent`, `handleDeleteRequest`, `handleRequest`,
`handleCountRequest`, `setListener`, `removeListenerId`, SHA-256 hashing of the
canonical serialization, signature checking, NIP-42 auth validation) are
oracles: fields of the `Relay` structure.  The handler's observable behaviour
is a trace of `Action`s (frames written via `ws.WriteJSON` plus collaborator
invocations) together with the updated per-connection state.  `Option` models
abnormal termination: `none` is the Go runtime panic raised by
`close(ws.WaitingForAuth)` when the channel is already closed.
-/

deriving instance DecidableEq for Except

namespace Khatru

/-- A nostr event as used by the handler: claimed id, author key, kind,
signature.  Canonical serialization and hashing are oracles on this record. -/
structure Event where
  id : String
  pubkey : String
  kind : Nat
  sig : String
deriving DecidableEq, Repr

/-- A subscription filter.  Opaque to this core (`src/handlers.go` passes
filters through to collaborators unmodified), so a tag suffices. -/
structure Filter where
  tag : Nat
deriving DecidableEq, Repr

/-- A frame written back to the peer via `ws.WriteJSON`. -/
inductive Msg where
  /-- Go nostr.OKEnvelope with EventID, OK, Reason. -/
  | okMsg (eventId : String) (accepted : Bool) (reason : String)
  /-- Go nostr.ClosedEnvelope with SubscriptionID, Reason. -/
  | closed (subId : String) (reason : String)
  /-- Go nostr.CountEnvelope with SubscriptionID, Count. -/
  | countReply (subId : String) (total : Int)
  /-- Go nostr.EOSEEnvelope carrying the subscription id. -/
  | eose (subId : String)
deriving DecidableEq, Repr

/-- One observable step of the handler: a frame written to the peer, or an
invocation of an external collaborator. -/
inductive Action where
  | write (m : Msg)
  /-- Call of `setListener(subscriptionID, ws, filters)` — live registration. -/
  | setListener (subId : String) (filters : List Filter)
  /-- Call of `removeListenerId(ws, subscriptionID)`. -/
  | removeListenerId (subId : String)
  /-- Call of `rl.AddEvent(ctx, &event)` — generic storage ingestion. -/
  | callAddEvent (ev : Event)
  /-- Call of `rl.handleDeleteRequest(ctx, &event)` — storage deletion. -/
  | callDelete (ev : Event)
  /-- Call of `rl.handleRequest(ctx, id, &eose, ws, filter)` — per-filter
  query plus registration attempt. -/
  | callHandleRequest (subId : String) (f : Filter)
  /-- Call of `rl.handleCountRequest(ctx, ws, filter)` — per-filter count. -/
  | callCount (f : Filter)
deriving DecidableEq, Repr

/-- Per-connection mutable state touched by the dispatcher: `ws.Challenge`
(fixed), `ws.Authed` (Go zero value `""` until set) and whether the one-shot
channel `ws.WaitingForAuth` has been closed (the auth completion signal). -/
structure WSState where
  challenge : String
  authed : String
  waitingForAuthClosed : Bool
deriving DecidableEq, Repr

/-- The relay with its collaborators, as consulted by `HandleWebsocket`.
`hashId ev` stands for `hex.EncodeToString(sha256.Sum256(ev.Serialize()))`;
`checkSignature` for `ev.CheckSignature()` (`.error` = Go non-nil error,
`.ok b` = the boolean result); the storage and registry calls return
`none` on success and `some msg` on error, mirroring Go's `error`;
`countConfigured` is `rl.CountEvents != nil`; `handleCountRequest` yields a
Go int64 value (the handler accumulates it with wrapping int64 addition);
`validateAuthEvent` is
`nip42.ValidateAuthEvent(&event, challenge, serviceURL)` returning the
pubkey on success. -/
structure Relay where
  hashId : Event → String
  checkSignature : Event → Except String Bool
  handleDeleteRequest : Event → Option String
  addEvent : Event → Option String
  countConfigured : Bool
  handleCountRequest : Filter → Int
  handleRequest : String → Filter → Option String
  serviceURL : String
  validateAuthEvent : Event → String → String → Option String

/-- Returns `some pre` when the char list contains the two-char substring
": ", with `pre` the chars strictly before its first occurrence; `none` when
there is no occurrence.  This is Go's `strings.Index(reason, ": ")` together
with the slice `reason[0:idx]`. -/
def beforeColonSpace : List Char → Option (List Char)
  | [] => none
  | [_] => none
  | c1 :: c2 :: rest =>
    if c1 = ':' ∧ c2 = ' ' then some []
    else
      match beforeColonSpace (c2 :: rest) with
      | some l => some (c1 :: l)
      | none => none

/-- Reduction of an unbounded integer into Go's signed 64-bit range
appearing wherever an int64 arithmetic result is stored: two's-complement
wrap-around into the interval from -2^63 up to (excluding) 2^63. -/
def wrap64 (x : Int) : Int := (x + 2 ^ 63) % 2 ^ 64 - 2 ^ 63

/-- Whether an integer lies in Go's int64 range. -/
def inInt64 (x : Int) : Bool := decide (-(2 ^ 63) ≤ x) && decide (x < 2 ^ 63)

/-- Whether, starting from running total `t`, every intermediate total of the
Count loop's int64 accumulation over the list stays in int64 range (no
overflow at any addition). -/
def sumFits64 (c : Filter → Int) : List Filter → Int → Bool
  | [], _ => true
  | f :: rest, t => inInt64 (t + c f) && sumFits64 c rest (t + c f)

/-- The go-nostr library function NormalizeOKMessage: if `reason` has no ": "
separator, or the machine-readable token before the first ": " itself contains
a space, prepend `fallback ++ ": "`; otherwise keep `reason` as is. -/
def normalizeOKMessage (reason fallback : String) : String :=
  match beforeColonSpace reason.data with
  | none => fallback ++ ": " ++ reason
  | some pre =>
    if pre.contains ' ' then fallback ++ ": " ++ reason else reason

/-- A decoded protocol envelope (`nostr.ParseMessage` result), one case per
variant the dispatcher switches on. -/
inductive Envelope where
  | event (ev : Event)
  | count (subId : String) (filters : List Filter)
  | req (subId : String) (filters : List Filter)
  | close (subId : String)
  | auth (ev : Event)
deriving DecidableEq, Repr

/-- One iteration of the Req loop body, threading
`(isFullyRejected, reason)`: on collaborator success clear the flag, on error
overwrite `reason` with that error. -/
def reqStep (rl : Relay) (subId : String) (acc : Bool × String) (f : Filter) :
    Bool × String :=
  match rl.handleRequest subId f with
  | none => (false, acc.2)
  | some e => (acc.1, e)

/-- The Go `if env.Event.Kind == 5` dispatch target. -/
def storageResult (rl : Relay) (ev : Event) : Option String :=
  if ev.kind = 5 then rl.handleDeleteRequest ev else rl.addEvent ev

/-- The collaborator-invocation action matching `storageResult`. -/
def storageCall (ev : Event) : Action :=
  if ev.kind = 5 then Action.callDelete ev else Action.callAddEvent ev

/-- The OK envelope written after the storage dispatch: affirmative with empty
reason on success, negative with the normalized reason (fallback "blocked") on
collaborator error. -/
def storageAck (ev : Event) : Option String → Msg
  | none => Msg.okMsg ev.id true ""
  | some e => Msg.okMsg ev.id false (normalizeOKMessage e "blocked")

/-- The body of the per-message goroutine of `HandleWebsocket`
(src/handlers.go lines 105–188): dispatch one decoded envelope, returning the
updated connection state and the trace of writes and collaborator calls, or
`none` for the runtime panic of closing an already-closed
`ws.WaitingForAuth` channel. -/
def handleMessage (rl : Relay) (ws : WSState) (env : Envelope) :
    Option (WSState × List Action) :=
  match env with
  | .event ev =>
    -- check id
    if rl.hashId ev ≠ ev.id then
      some (ws, [.write (.okMsg ev.id false "invalid: id is computed incorrectly")])
    else
      -- check signature
      match rl.checkSignature ev with
      | .error _ =>
        some (ws, [.write (.okMsg ev.id false "error: failed to verify signature")])
      | .ok false =>
        some (ws, [.write (.okMsg ev.id false "invalid: signature is invalid")])
      | .ok true =>
        some (ws, [storageCall ev, .write (storageAck ev (storageResult rl ev))])
  | .count subId filters =>
    if rl.countConfigured then
      -- var total int64; total += rl.handleCountRequest(ctx, ws, filter):
      -- the accumulation is Go int64 addition, which wraps on overflow
      some (ws, filters.map Action.callCount ++
        [.write (.countReply subId
          (filters.foldl (fun t f => wrap64 (t + rl.handleCountRequest f)) 0))])
    else
      some (ws, [.write (.closed subId "unsupported: this relay does not support NIP-45")])
  | .req subId filters =>
    let acc := filters.foldl (reqStep rl subId) (true, "")
    let calls := filters.map (Action.callHandleRequest subId)
    if acc.1 then
      -- all filters were invalidated
      some (ws, calls ++
        [.write (.closed subId (normalizeOKMessage acc.2 "blocked"))])
    else
      -- after eose.Wait(), one EOSE is written; then setListener registers
      -- env.Filters (the full original list) for this subscription id
      some (ws, calls ++ [.setListener subId filters, .write (.eose subId)])
  | .close subId =>
    some (ws, [.removeListenerId subId])
  | .auth ev =>
    if rl.serviceURL = "" then
      some (ws, [])
    else
      match rl.validateAuthEvent ev ws.challenge rl.serviceURL with
      | some pubkey =>
        -- ws.Authed = pubkey; close(ws.WaitingForAuth) — the close panics
        -- when the channel is already closed
        if ws.waitingForAuthClosed then
          none
        else
          some ({ ws with authed := pubkey, waitingForAuthClosed := true },
            [.write (.okMsg ev.id true "")])
      | none =>
        some (ws, [.write (.okMsg ev.id false "error: failed to authenticate")])

/-! Concrete fixtures used by witnesses and counterexamples. -/

/-- A concrete relay: the hash oracle recomputes "good" only for the event id
"good"; a signature checks out iff the sig field is "oksig" and is malformed
iff it is "badsig"; storage rejects events from pubkey "spam" with a
policy-shaped reason; counting is configured and counts a filter by its tag;
Req accepts odd-tagged filters and rejects even-tagged ones; NIP-42 is
configured and validates iff the sig field is "authok". -/
def rlW : Relay where
  hashId ev := if ev.id = "good" then "good" else "otherhash"
  checkSignature ev :=
    if ev.sig = "badsig" then .error "malformed" else .ok (ev.sig = "oksig")
  handleDeleteRequest _ := none
  addEvent ev := if ev.pubkey = "spam" then some "rate-limited: too much" else none
  countConfigured := true
  handleCountRequest f := (f.tag : Int)
  handleRequest _ f := if f.tag % 2 = 1 then none else some "blocked: even filters"
  serviceURL := "wss://relay.example"
  validateAuthEvent ev _ _ := if ev.sig = "authok" then some ev.pubkey else none

/-- The same relay with no count-capable storage collaborator
(`rl.CountEvents == nil`). -/
def rlNoCount : Relay := { rlW with countConfigured := false }

/-- A fresh connection state: challenge issued, not authenticated, the
one-shot auth channel still open. -/
def wsFresh : WSState :=
  { challenge := "ch", authed := "", waitingForAuthClosed := false }

/-- An event whose recomputed hash ("otherhash") differs from its claimed id. -/
def evBadId : Event := { id := "claimed", pubkey := "p", kind := 1, sig := "oksig" }

/-- An event with a correct id but a signature that verifies negatively. -/
def evBadSig : Event := { id := "good", pubkey := "p", kind := 1, sig := "wrong" }

/-- An event with correct id and valid signature, whose ingestion the storage
collaborator rejects with reason "rate-limited: too much". -/
def evOk : Event := { id := "good", pubkey := "spam", kind := 1, sig := "oksig" }

/-- An auth event that `rlW.validateAuthEvent` accepts, yielding pubkey "pk". -/
def evAuth : Event := { id := "a1", pubkey := "pk", kind := 22242, sig := "authok" }

/-- An auth event that `rlW.validateAuthEvent` rejects. -/
def evAuthBad : Event := { id := "a2", pubkey := "pk", kind := 22242, sig := "nope" }

/-- A filter `rlW.handleRequest` accepts. -/
def fOdd : Filter := ⟨1⟩

/-- A filter `rlW.handleRequest` rejects. -/
def fEven : Filter := ⟨2⟩

/-- Another filter `rlW.handleRequest` rejects. -/
def fEven4 : Filter := ⟨4⟩

/-- A count-configured relay whose count collaborator returns 2^62 for every
filter, so that accumulating two filters overflows int64. -/
def rlBig : Relay := { rlW with handleCountRequest := fun _ => 2 ^ 62 }

/-! Helper lemmas about the Req loop fold and the Count loop fold. -/

/-- Once the `isFullyRejected` flag is false, the rest of the Req loop keeps
it false. -/
theorem reqFold_fst_false (rl : Relay) (subId : String) :
    ∀ (filters : List Filter) (acc : Bool × String), acc.1 = false →
      (filters.foldl (reqStep rl subId) acc).1 = false
  | [], _, h => h
  | f :: rest, acc, h => by
    have hstep : (reqStep rl subId acc f).1 = false := by
      cases hr : rl.handleRequest subId f <;> simp [reqStep, hr, h]
    exact reqFold_fst_false rl subId rest _ hstep

/-- If some filter in the list is accepted, the Req loop ends with the
`isFullyRejected` flag false. -/
theorem reqFold_accepted (rl : Relay) (subId : String) :
    ∀ (filters : List Filter) (acc : Bool × String),
      (∃ f ∈ filters, rl.handleRequest subId f = none) →
      (filters.foldl (reqStep rl subId) acc).1 = false
  | [], _, h => by simp at h
  | f :: rest, acc, h => by
    cases hr : rl.handleRequest subId f with
    | none =>
      show (rest.foldl (reqStep rl subId) (reqStep rl subId acc f)).1 = false
      exact reqFold_fst_false rl subId rest _ (by simp [reqStep, hr])
    | some e =>
      obtain ⟨g, hg, hgn⟩ := h
      rcases List.mem_cons.mp hg with hgf | hgr
      · rw [hgf] at hgn; rw [hr] at hgn; cases hgn
      · exact reqFold_accepted rl subId rest (reqStep rl subId acc f) ⟨g, hgr, hgn⟩

/-- If every filter in the list is rejected, the Req loop keeps the flag it
started with and ends with `reason` equal to the last filter's error. -/
theorem reqFold_all_rejected (rl : Relay) (subId : String) :
    ∀ (filters : List Filter) (flast : Filter) (e : String),
      (∀ f ∈ filters, rl.handleRequest subId f ≠ none) →
      filters.getLast? = some flast →
      rl.handleRequest subId flast = some e →
      ∀ (acc : Bool × String),
        filters.foldl (reqStep rl subId) acc = (acc.1, e)
  | [], _, _, _, hl, _, _ => by cases hl
  | [f], flast, e, _, hl, he, acc => by
    have hf : f = flast := by simpa using hl
    subst hf
    simp [List.foldl, reqStep, he]
  | f :: g :: rest, flast, e, hall, hl, he, acc => by
    have hf : rl.handleRequest subId f ≠ none := hall f (by simp)
    obtain ⟨ef, hef⟩ : ∃ x, rl.handleRequest subId f = some x := by
      cases hfr : rl.handleRequest subId f
      · exact absurd hfr hf
      · exact ⟨_, rfl⟩
    have hl' : (g :: rest).getLast? = some flast := by
      rw [← hl]; exact List.getLast?_cons_cons.symm
    have ih := reqFold_all_rejected rl subId (g :: rest) flast e
      (fun x hx => hall x (List.mem_cons_of_mem f hx)) hl' he
      (reqStep rl subId acc f)
    calc (f :: g :: rest).foldl (reqStep rl subId) acc
        = (g :: rest).foldl (reqStep rl subId) (reqStep rl subId acc f) := rfl
      _ = ((reqStep rl subId acc f).1, e) := ih
      _ = (acc.1, e) := by simp [reqStep, hef]

/-- Wrapping into int64 is the identity on values already in range. -/
theorem wrap64_eq_of {x : Int} (h1 : -(2 ^ 63) ≤ x) (h2 : x < 2 ^ 63) :
    wrap64 x = x := by
  unfold wrap64
  have h0 : 0 ≤ x + 2 ^ 63 := by omega
  have hlt : x + 2 ^ 63 < 2 ^ 64 := by omega
  rw [Int.emod_eq_of_lt h0 hlt]
  ring

/-- When no intermediate total of the Count loop overflows int64, the
wrapping accumulation agrees with the plain sum of the per-filter counts. -/
theorem countFold_eq_sum_of_fits (c : Filter → Int) :
    ∀ (l : List Filter) (t : Int), sumFits64 c l t = true →
      l.foldl (fun a f => wrap64 (a + c f)) t = t + (l.map c).sum
  | [], t, _ => by simp
  | f :: rest, t, h => by
    simp only [sumFits64, Bool.and_eq_true] at h
    obtain ⟨hin, hrest⟩ := h
    simp only [inInt64, Bool.and_eq_true, decide_eq_true_eq] at hin
    simp only [List.foldl, List.map, List.sum_cons]
    rw [wrap64_eq_of hin.1 hin.2, countFold_eq_sum_of_fits c rest (t + c f) hrest]
    ring

/-! Claim theorems. -/

/-- C3: an inbound Event envelope whose recomputed hash differs from its
claimed id is answered by exactly one negative OK envelope with reason
"invalid: id is computed incorrectly", and the trace contains no storage
collaborator call (no `callAddEvent`, no `callDelete`). -/
theorem event_id_mismatch_rejected_without_storage
    (rl : Relay) (ws : WSState) (ev : Event) (h : rl.hashId ev ≠ ev.id) :
    handleMessage rl ws (.event ev) =
      some (ws, [.write (.okMsg ev.id false "invalid: id is computed incorrectly")]) := by
  simp [handleMessage, h]

/-- Witness for C3 at a concrete event whose hash oracle yields "otherhash"
against claimed id "claimed". -/
theorem event_id_mismatch_rejected_without_storage_witness :
    rlW.hashId evBadId ≠ evBadId.id ∧
    handleMessage rlW wsFresh (.event evBadId) =
      some (wsFresh,
        [.write (.okMsg "claimed" false "invalid: id is computed incorrectly")]) :=
  ⟨by decide, event_id_mismatch_rejected_without_storage rlW wsFresh evBadId (by decide)⟩

/-- C4: an inbound Event envelope with a correct id whose signature check
errors or returns false is answered by exactly one negative OK envelope
carrying one of the two verification-failure reasons, and the trace contains
no storage collaborator call. -/
theorem event_bad_signature_rejected_without_storage
    (rl : Relay) (ws : WSState) (ev : Event)
    (hid : rl.hashId ev = ev.id) (hsig : rl.checkSignature ev ≠ .ok true) :
    ∃ r, (r = "error: failed to verify signature" ∨
          r = "invalid: signature is invalid") ∧
      handleMessage rl ws (.event ev) =
        some (ws, [.write (.okMsg ev.id false r)]) := by
  cases hs : rl.checkSignature ev with
  | error e => exact ⟨_, Or.inl rfl, by simp [handleMessage, hid, hs]⟩
  | ok b =>
    cases b with
    | false => exact ⟨_, Or.inr rfl, by simp [handleMessage, hid, hs]⟩
    | true => exact absurd hs hsig

/-- Witness for C4 at a concrete event with correct id and a signature that
verifies negatively. -/
theorem event_bad_signature_rejected_without_storage_witness :
    rlW.hashId evBadSig = evBadSig.id ∧
    rlW.checkSignature evBadSig ≠ .ok true ∧
    (∃ r, (r = "error: failed to verify signature" ∨
           r = "invalid: signature is invalid") ∧
      handleMessage rlW wsFresh (.event evBadSig) =
        some (wsFresh, [.write (.okMsg evBadSig.id false r)])) :=
  ⟨by decide, by decide,
    event_bad_signature_rejected_without_storage rlW wsFresh evBadSig
      (by decide) (by decide)⟩

/-- C6: an inbound Event envelope passing both gates is routed by kind — kind
5 to the deletion collaborator, any other kind to the generic ingestion
collaborator — followed by exactly one OK envelope correlated by the event's
id, affirmative exactly when the collaborator succeeded, and carrying the
normalized reason (fallback "blocked") on collaborator error. -/
theorem event_valid_dispatch_single_ack
    (rl : Relay) (ws : WSState) (ev : Event)
    (hid : rl.hashId ev = ev.id) (hsig : rl.checkSignature ev = .ok true) :
    handleMessage rl ws (.event ev) =
      some (ws, [storageCall ev, .write (storageAck ev (storageResult rl ev))]) ∧
    (ev.kind = 5 → storageCall ev = .callDelete ev ∧
      storageResult rl ev = rl.handleDeleteRequest ev) ∧
    (ev.kind ≠ 5 → storageCall ev = .callAddEvent ev ∧
      storageResult rl ev = rl.addEvent ev) ∧
    storageAck ev none = .okMsg ev.id true "" ∧
    ∀ e, storageAck ev (some e) =
      .okMsg ev.id false (normalizeOKMessage e "blocked") := by
  refine ⟨by simp [handleMessage, hid, hsig], ?_, ?_, rfl, fun e => rfl⟩
  · intro h5; simp [storageCall, storageResult, h5]
  · intro h5; simp [storageCall, storageResult, h5]

/-- Witness for C6 at a concrete valid event of non-deletion kind whose
ingestion the storage collaborator rejects with a policy-shaped reason that
normalization keeps verbatim. -/
theorem event_valid_dispatch_single_ack_witness :
    rlW.hashId evOk = evOk.id ∧
    rlW.checkSignature evOk = .ok true ∧
    handleMessage rlW wsFresh (.event evOk) =
      some (wsFresh, [.callAddEvent evOk,
        .write (.okMsg "good" false "rate-limited: too much")]) :=
  ⟨by decide, by decide,
    (event_valid_dispatch_single_ack rlW wsFresh evOk (by decide) (by decide)).1.trans
      (by decide)⟩

/-- C7: a Count envelope received when no count collaborator is configured is
answered by exactly one ClosedEnvelope stating the capability is unsupported;
the trace contains no `callCount` and no count reply. -/
theorem count_unconfigured_closed_notice_only
    (rl : Relay) (ws : WSState) (subId : String) (filters : List Filter)
    (h : rl.countConfigured = false) :
    handleMessage rl ws (.count subId filters) =
      some (ws, [.write (.closed subId "unsupported: this relay does not support NIP-45")]) := by
  simp [handleMessage, h]

/-- Witness for C7 at the concrete relay without a count collaborator. -/
theorem count_unconfigured_closed_notice_only_witness :
    rlNoCount.countConfigured = false ∧
    handleMessage rlNoCount wsFresh (.count "c" [fOdd]) =
      some (wsFresh,
        [.write (.closed "c" "unsupported: this relay does not support NIP-45")]) :=
  ⟨rfl, count_unconfigured_closed_notice_only rlNoCount wsFresh "c" [fOdd] rfl⟩

/-- C8 (counterexample): with a configured count collaborator returning 2^62
for each of two filters, the Go int64 accumulation wraps and the handler
writes back total -2^63, while the sum of the collaborator's results is 2^63
— so the reply's total does not equal that sum. -/
theorem count_overflow_total_differs_from_sum :
    handleMessage rlBig wsFresh (.count "c" [fOdd, fEven]) =
      some (wsFresh, [.callCount fOdd, .callCount fEven,
        .write (.countReply "c" (-(2 ^ 63)))]) ∧
    ([fOdd, fEven].map rlBig.handleCountRequest).sum = 2 ^ 63 ∧
    (-(2 ^ 63) : Int) ≠ 2 ^ 63 :=
  ⟨by decide, by decide, by decide⟩

/-- C8 (amended): a Count envelope received when a count collaborator is
configured invokes the collaborator once per filter, in list order and with
no deduplication, and is answered by exactly one count envelope carrying the
subscription id and the int64-wrapping accumulation of the per-filter
results; whenever no intermediate total overflows int64, that accumulation
equals the plain sum of the per-filter results. -/
theorem count_configured_wrapped_sum_per_filter
    (rl : Relay) (ws : WSState) (subId : String) (filters : List Filter)
    (h : rl.countConfigured = true) :
    handleMessage rl ws (.count subId filters) =
      some (ws, filters.map Action.callCount ++
        [.write (.countReply subId
          (filters.foldl (fun t f => wrap64 (t + rl.handleCountRequest f)) 0))]) ∧
    (sumFits64 rl.handleCountRequest filters 0 = true →
      filters.foldl (fun t f => wrap64 (t + rl.handleCountRequest f)) 0 =
        (filters.map rl.handleCountRequest).sum) := by
  refine ⟨by simp [handleMessage, h], fun hfit => ?_⟩
  rw [countFold_eq_sum_of_fits rl.handleCountRequest filters 0 hfit]
  ring

/-- Witness for the amended C8: two filters counted 1 and 2 do not overflow
and yield total 3. -/
theorem count_configured_wrapped_sum_per_filter_witness :
    rlW.countConfigured = true ∧
    handleMessage rlW wsFresh (.count "c" [fOdd, fEven]) =
      some (wsFresh, [.callCount fOdd, .callCount fEven,
        .write (.countReply "c" 3)]) ∧
    sumFits64 rlW.handleCountRequest [fOdd, fEven] 0 = true ∧
    ([fOdd, fEven].map rlW.handleCountRequest).sum = 3 :=
  ⟨rfl,
    (count_configured_wrapped_sum_per_filter rlW wsFresh "c" [fOdd, fEven] rfl).1.trans
      (by decide),
    by decide, by decide⟩

/-- C5: a Req envelope in which every filter is rejected is answered by
exactly one ClosedEnvelope whose reason is the normalized last error
(fallback "blocked"); the trace contains no `setListener` and no EOSE
write. -/
theorem req_all_rejected_closed_no_registration_no_eose
    (rl : Relay) (ws : WSState) (subId : String) (filters : List Filter)
    (hall : ∀ f ∈ filters, rl.handleRequest subId f ≠ none)
    (flast : Filter) (hl : filters.getLast? = some flast)
    (e : String) (he : rl.handleRequest subId flast = some e) :
    handleMessage rl ws (.req subId filters) =
      some (ws, filters.map (Action.callHandleRequest subId) ++
        [.write (.closed subId (normalizeOKMessage e "blocked"))]) := by
  have hacc := reqFold_all_rejected rl subId filters flast e hall hl he (true, "")
  simp [handleMessage, hacc]

/-- Witness for C5: two rejected filters produce one closed notice carrying
the last filter's (already policy-shaped) error, no registration, no EOSE. -/
theorem req_all_rejected_closed_no_registration_no_eose_witness :
    (∀ f ∈ [fEven, fEven4], rlW.handleRequest "s" f ≠ none) ∧
    ([fEven, fEven4].getLast? = some fEven4) ∧
    rlW.handleRequest "s" fEven4 = some "blocked: even filters" ∧
    handleMessage rlW wsFresh (.req "s" [fEven, fEven4]) =
      some (wsFresh, [.callHandleRequest "s" fEven, .callHandleRequest "s" fEven4,
        .write (.closed "s" "blocked: even filters")]) :=
  ⟨by decide, by decide, by decide,
    (req_all_rejected_closed_no_registration_no_eose rlW wsFresh "s" [fEven, fEven4]
      (by decide) fEven4 (by decide) "blocked: even filters" (by decide)).trans
      (by decide)⟩

/-- C10: a Req envelope with an empty filter list is treated as fully
rejected: one ClosedEnvelope whose reason is the normalization of the empty
string — which is the fallback "blocked: " — no registration, no EOSE. -/
theorem req_empty_filters_closed_blocked
    (rl : Relay) (ws : WSState) (subId : String) :
    handleMessage rl ws (.req subId []) =
      some (ws, [.write (.closed subId (normalizeOKMessage "" "blocked"))]) ∧
    normalizeOKMessage "" "blocked" = "blocked: " :=
  ⟨rfl, rfl⟩

/-- C1 (counterexample): with filter `fOdd` accepted and filter `fEven`
rejected by the per-filter collaborator, the handler still performs
`setListener` with the full original list `[fOdd, fEven]` — the rejected
filter is included in the live registration, so the registration is not
restricted to the successful filters. -/
theorem req_partial_rejection_registers_rejected_filter :
    rlW.handleRequest "sub1" fOdd = none ∧
    rlW.handleRequest "sub1" fEven = some "blocked: even filters" ∧
    handleMessage rlW wsFresh (.req "sub1" [fOdd, fEven]) =
      some (wsFresh,
        [.callHandleRequest "sub1" fOdd, .callHandleRequest "sub1" fEven,
         .setListener "sub1" [fOdd, fEven], .write (.eose "sub1")]) :=
  ⟨rfl, rfl, by decide⟩

/-- C1 (amended): a Req envelope in which at least one filter is accepted
performs the live registration once, with the entire original filter list
(rejected filters included), and the trace contains exactly one EOSE write
for the subscription id after all per-filter synchronous work. -/
theorem req_partial_success_registers_full_list_single_eose
    (rl : Relay) (ws : WSState) (subId : String) (filters : List Filter)
    (h : ∃ f ∈ filters, rl.handleRequest subId f = none) :
    handleMessage rl ws (.req subId filters) =
      some (ws, filters.map (Action.callHandleRequest subId) ++
        [.setListener subId filters, .write (.eose subId)]) := by
  have hacc := reqFold_accepted rl subId filters (true, "") h
  simp [handleMessage, hacc]

/-- Witness for the amended C1 at one accepted and one rejected filter. -/
theorem req_partial_success_registers_full_list_single_eose_witness :
    (∃ f ∈ [fOdd, fEven], rlW.handleRequest "s" f = none) ∧
    handleMessage rlW wsFresh (.req "s" [fOdd, fEven]) =
      some (wsFresh,
        [.callHandleRequest "s" fOdd, .callHandleRequest "s" fEven,
         .setListener "s" [fOdd, fEven], .write (.eose "s")]) :=
  ⟨by decide,
    (req_partial_success_registers_full_list_single_eose rlW wsFresh "s"
      [fOdd, fEven] (by decide)).trans (by decide)⟩

/-- C9: an Auth envelope failing validation (with a configured service URL)
is answered by exactly one negative OK envelope with the generic reason
"error: failed to authenticate", and the connection state is returned
unchanged — the authenticated identity keeps its prior value and the
completion signal keeps its prior (unfired) status. -/
theorem auth_failure_negative_ack_state_unchanged
    (rl : Relay) (ws : WSState) (ev : Event)
    (hurl : rl.serviceURL ≠ "")
    (hval : rl.validateAuthEvent ev ws.challenge rl.serviceURL = none) :
    handleMessage rl ws (.auth ev) =
      some (ws, [.write (.okMsg ev.id false "error: failed to authenticate")]) := by
  simp [handleMessage, hurl, hval]

/-- Witness for C9 at a concrete rejected auth event on a fresh connection. -/
theorem auth_failure_negative_ack_state_unchanged_witness :
    rlW.serviceURL ≠ "" ∧
    rlW.validateAuthEvent evAuthBad wsFresh.challenge rlW.serviceURL = none ∧
    handleMessage rlW wsFresh (.auth evAuthBad) =
      some (wsFresh, [.write (.okMsg "a2" false "error: failed to authenticate")]) :=
  ⟨by decide, by decide,
    auth_failure_negative_ack_state_unchanged rlW wsFresh evAuthBad
      (by decide) (by decide)⟩

/-- C2 (code evaluated at the failing input): the first successful Auth
envelope fires the completion signal and acknowledges affirmatively, but a
second successful Auth envelope on the same connection hits the unconditional
`close(ws.WaitingForAuth)` while the channel is already closed — the Go
runtime panics (modelled as `none`) instead of completing normally. -/
theorem auth_second_success_panics :
    handleMessage rlW wsFresh (.auth evAuth) =
      some ({ challenge := "ch", authed := "pk", waitingForAuthClosed := true },
        [.write (.okMsg "a1" true "")]) ∧
    handleMessage rlW
      { challenge := "ch", authed := "pk", waitingForAuthClosed := true }
      (.auth evAuth) = none :=
  ⟨by decide, by decide⟩

end Khatru
